import Mathlib

/-!
Shallow embedding of the kuadrant-operator reconciliation excerpt:
the AuthPolicy status calculator (controllers/authpolicy_status.go),
the Limitador spec-merge mutator (pkg/kuadranttools/limitador_tools.go),
and the workflow composition with the Authorino CR ensurer, topology
ConfigMap synchronizer and event logger (the unnamed controllers file).

External-store effects (create/update calls, their outcomes) are passed
in as explicit inputs and returned as explicit outputs; log emission is
returned as a list of entries with a severity level.
-/

/-- metav1.ConditionStatus: True / False / Unknown. -/
inductive ConditionStatus where
  | conditionTrue
  | conditionFalse
  | conditionUnknown
deriving DecidableEq, Repr

/-- metav1.Condition, restricted to the fields the code sets
(LastTransitionTime is managed by the apimachinery helper and not
observed by any claim). -/
structure KCondition where
  type : String
  status : ConditionStatus
  reason : String
  message : String
deriving DecidableEq, Repr

/-- const APAvailableConditionType string = "Available" -/
def APAvailableConditionType : String := "Available"

/-- AuthPolicyStatus: the condition list and the observed generation. -/
structure AuthPolicyStatus where
  conditions : List KCondition
  observedGeneration : Int
deriving DecidableEq, Repr

/-- The slice of an AuthPolicy that the status reconciler reads:
its metadata generation, the targetRef kind from the spec, and the
current status block. -/
structure AuthPolicy where
  generation : Int
  targetRefKind : String
  status : AuthPolicyStatus
deriving DecidableEq, Repr

/-- availableCondition (authpolicy_status.go lines 88-108): builds the
"Available" condition, starting from the protected/true shape and
downgrading it for a spec error or a not-ready AuthConfig. -/
def availableCondition (targetNetworkObjectectKind : String)
    (specErr : Option String) (authConfigReady : Bool) : KCondition :=
  let cond : KCondition :=
    { type := APAvailableConditionType
      status := .conditionTrue
      reason := targetNetworkObjectectKind ++ "Protected"
      message := targetNetworkObjectectKind ++ " is protected" }
  match specErr with
  | some e =>
      { cond with
        status := .conditionFalse
        reason := "ReconciliationError"
        message := e }
  | none =>
      if authConfigReady then cond
      else
        { cond with
          status := .conditionFalse
          reason := "AuthSchemeNotReady"
          message := "AuthScheme is not ready yet" }

/-- meta.SetStatusCondition from k8s apimachinery, modelled on its
documented behaviour: upsert by condition Type (replace the condition
with the same type in place, or append when none exists). Time fields
are omitted. -/
def setStatusCondition : List KCondition → KCondition → List KCondition
  | [], c => [c]
  | x :: xs, c => if x.type = c.type then c :: xs else x :: setStatusCondition xs c

/-- calculateStatus (authpolicy_status.go): copies the current
conditions and observed generation, then upserts the availability
condition computed by availableCondition. -/
def calculateStatus (ap : AuthPolicy) (specErr : Option String)
    (authConfigReady : Bool) : AuthPolicyStatus :=
  { conditions :=
      setStatusCondition ap.status.conditions
        (availableCondition ap.targetRefKind specErr authConfigReady)
    observedGeneration := ap.status.observedGeneration }

/-- meta.FindStatusCondition: first condition with the given type. -/
def findCondition (conds : List KCondition) (t : String) : Option KCondition :=
  conds.find? (fun c => c.type = t)

/-- Errors coming back from a status update call. The apimachinery
predicate errors.IsConflict distinguishes optimistic-concurrency
conflicts from every other failure, so the error is embedded as that
distinction plus the message text. -/
inductive StoreErr where
  | conflict
  | other (msg : String)
deriving DecidableEq, Repr

/-- ctrl.Result: only the Requeue flag is ever set by this code. -/
structure CtrlResult where
  requeue : Bool
deriving DecidableEq, Repr

/-- Modelled from the spec: AuthPolicyStatus.Equals is not part of the
excerpt; per the spec it is "a semantic equality that ignores
ObservedGeneration", i.e. equality of the condition lists. -/
def statusEquals (a b : AuthPolicyStatus) : Bool :=
  a.conditions = b.conditions

/-- What reconcileStatus hands back: the controller-runtime result, the
returned error, whether a status update call was issued, and the
AuthPolicy as left in memory (its status is overwritten just before the
update call). -/
structure ReconcileStatusOut where
  result : CtrlResult
  error : Option String
  wrote : Bool
  ap : AuthPolicy
deriving DecidableEq, Repr

/-- The AuthConfig readiness step of reconcileStatus: skipped (treated
as ready) when a spec error is already at hand, otherwise the outcome
of fetching the AuthConfig and reading Status.Ready(). -/
def effReadyStep (specErr : Option String) (fetchReady : Except String Bool) :
    Except String Bool :=
  match specErr with
  | some _ => .ok true
  | none => fetchReady

/-- reconcileStatus (authpolicy_status.go lines 21-73). Store
interactions are explicit inputs: fetchReady is the AuthConfig fetch
outcome, updateErr the outcome of the Status().Update call (consulted
only when the write is issued). -/
def reconcileStatus (ap : AuthPolicy) (specErr : Option String)
    (fetchReady : Except String Bool) (updateErr : Option StoreErr) :
    ReconcileStatusOut :=
  match effReadyStep specErr fetchReady with
  | .error e => { result := ⟨false⟩, error := some e, wrote := false, ap := ap }
  | .ok isAuthConfigReady =>
      let newStatus := calculateStatus ap specErr isAuthConfigReady
      if statusEquals ap.status newStatus ∧ ap.generation = ap.status.observedGeneration then
        { result := ⟨false⟩, error := none, wrote := false, ap := ap }
      else
        let written := { newStatus with observedGeneration := ap.generation }
        let ap2 := { ap with status := written }
        match updateErr with
        | none => { result := ⟨false⟩, error := none, wrote := true, ap := ap2 }
        | some .conflict => { result := ⟨true⟩, error := none, wrote := true, ap := ap2 }
        | some (.other m) =>
            { result := ⟨false⟩
              error := some ("failed to update status: " ++ m)
              wrote := true
              ap := ap2 }

/-- limitadorv1alpha1.LimitadorSpec: the five allow-listed fields the
mutator manages plus the remaining spec fields (limits, listener,
version, rate-limit headers, telemetry) owned by other agents. Field
payloads are kept opaque as strings / integers. -/
structure LimitadorSpec where
  affinity : Option String
  podDisruptionBudget : Option String
  replicas : Option Int
  resourceRequirements : Option String
  storage : Option String
  limits : List String
  listener : Option String
  version : Option String
  rateLimitHeaders : Option String
  telemetry : Option String
deriving DecidableEq, Repr

/-- Object metadata of a Limitador, untouched by the mutator. -/
structure LimitadorMeta where
  name : String
  namespaceName : String
  labels : List (String × String)
deriving DecidableEq, Repr

/-- limitadorv1alpha1.Limitador: metadata plus spec. -/
structure Limitador where
  meta : LimitadorMeta
  spec : LimitadorSpec
deriving DecidableEq, Repr

/-- v1beta1.LimitadorSpec: the allow-listed subset type that
limitadorSpecSubSet extracts into. -/
structure KuadrantLimitadorSpec where
  affinity : Option String
  podDisruptionBudget : Option String
  replicas : Option Int
  resourceRequirements : Option String
  storage : Option String
deriving DecidableEq, Repr

/-- limitadorSpecSubSet (limitador_tools.go lines 37-47): copies the
five managed fields out of a full spec. -/
def limitadorSpecSubSet (spec : LimitadorSpec) : KuadrantLimitadorSpec :=
  { affinity := spec.affinity
    podDisruptionBudget := spec.podDisruptionBudget
    replicas := spec.replicas
    resourceRequirements := spec.resourceRequirements
    storage := spec.storage }

/-- LimitadorMutator (limitador_tools.go lines 11-35), on the typed
path (both arguments already *Limitador; the type-assertion failure
branch returns an error before this logic runs). In Go the existing
object is mutated in place; here the updated object is returned next to
the changed flag. -/
def LimitadorMutator (existing desired : Limitador) : Bool × Limitador :=
  if limitadorSpecSubSet existing.spec = limitadorSpecSubSet desired.spec then
    (false, existing)
  else
    (true,
      { existing with
        spec :=
          { existing.spec with
            affinity := desired.spec.affinity
            podDisruptionBudget := desired.spec.podDisruptionBudget
            replicas := desired.spec.replicas
            resourceRequirements := desired.spec.resourceRequirements
            storage := desired.spec.storage } })

/-- controller.EventType. -/
inductive EventType where
  | createEvent
  | updateEvent
  | deleteEvent
deriving DecidableEq, Repr

/-- The String rendering EventType.String() used by the event logger. -/
def EventType.render : EventType → String
  | .createEvent => "create"
  | .updateEvent => "update"
  | .deleteEvent => "delete"

/-- A topology member as the reconcilers read it: kind, namespace,
name, UID, the deletion marker, and the data map (meaningful for
ConfigMaps, read by the topology file reconciler). -/
structure TopoObject where
  kind : String
  namespaceName : String
  name : String
  uid : String
  deletionTimestamp : Option String
  data : List (String × String)
deriving DecidableEq, Repr

/-- Looks a key up in an object's data map (Go map indexing with the
comma-ok idiom). -/
def lookupData (kvs : List (String × String)) (k : String) : Option String :=
  match kvs.find? (fun kv => kv.1 = k) with
  | some kv => some kv.2
  | none => none

/-- machinery.Topology as consumed here: the root objects, the full
object set, and the ToDot serialization (produced by the external graph
engine, carried as an opaque string). -/
structure Topology where
  roots : List TopoObject
  objects : List TopoObject
  dot : String
deriving DecidableEq, Repr

/-- Severity of an emitted log line. -/
inductive LogLevel where
  | info
  | errorLevel
deriving DecidableEq, Repr

/-- One emitted log line: severity plus its message. -/
structure LogEntry where
  level : LogLevel
  msg : String
deriving DecidableEq, Repr

/-- Outcome of a Create call against the store. -/
inductive CreateOutcome where
  | ok
  | alreadyExists
  | failed (msg : String)
deriving DecidableEq, Repr

/-- Number of error-severity entries in a log. -/
def countErrors (logs : List LogEntry) : Nat :=
  (logs.filter (fun l => l.level = .errorLevel)).length

/-- Output of AuthorinoCrReconciler.Reconcile: the emitted log and
whether a Create call for the Authorino resource was issued. -/
structure AuthorinoReconcileOut where
  logs : List LogEntry
  createIssued : Bool
deriving DecidableEq, Repr

/-- AuthorinoCrReconciler.Reconcile. The store interactions are
explicit inputs: destructErr is the outcome of controller.Destruct on
the built Authorino CR, createOutcome the result of the Create call
(consulted only when the call is issued). Mirrors the source
control flow: filter Kuadrant roots, bail out when none, log an error
(but continue with the first) when several, bail out when the first is
deletion-marked, bail out when an Authorino object already exists,
otherwise destruct (logging any error and continuing) and create. -/
def authorinoCrReconcile (t : Topology) (destructErr : Option String)
    (createOutcome : CreateOutcome) : AuthorinoReconcileOut :=
  let startLog : List LogEntry := [⟨.info, "reconciling authorino resource started"⟩]
  let endLog : List LogEntry := [⟨.info, "reconciling authorino resource completed"⟩]
  match t.roots.filter (fun o => o.kind = "Kuadrant") with
  | [] => ⟨startLog ++ [⟨.info, "no kuadrant resources found"⟩] ++ endLog, false⟩
  | kobj :: rest =>
      let multiLog : List LogEntry :=
        if rest.isEmpty then [] else [⟨.errorLevel, "multiple Kuadrant resources found"⟩]
      if kobj.deletionTimestamp.isSome then
        ⟨startLog ++ multiLog ++ [⟨.info, "root kuadrant marked for deletion"⟩] ++ endLog,
          false⟩
      else if (t.objects.filter (fun o => o.kind = "Authorino")).isEmpty = false then
        ⟨startLog ++ multiLog ++
          [⟨.info, "authorino resource already exists, no need to create"⟩] ++ endLog,
          false⟩
      else
        let destructLog : List LogEntry :=
          match destructErr with
          | some _ => [⟨.errorLevel, "failed to destruct authorino"⟩]
          | none => []
        let createLog : List LogEntry :=
          match createOutcome with
          | .ok => []
          | .alreadyExists => [⟨.info, "already created authorino resource"⟩]
          | .failed _ => [⟨.errorLevel, "failed to create authorino resource"⟩]
        ⟨startLog ++ multiLog ++ destructLog ++
          [⟨.info, "creating authorino resource"⟩] ++ createLog ++ endLog, true⟩

/-- A write action issued by the topology file reconciler. -/
inductive TopoWrite where
  | createCM
  | updateCM
deriving DecidableEq, Repr

/-- Output of TopologyFileReconciler.Reconcile: the emitted log and the
store write issued in the pass, if any. -/
structure TopoReconcileOut where
  logs : List LogEntry
  write : Option TopoWrite
deriving DecidableEq, Repr

/-- The predicate selecting existing topology ConfigMaps in the object
set: fixed name "topology", the reconciler's namespace, kind
ConfigMap. -/
def isTopologyCM (ns : String) (o : TopoObject) : Bool :=
  o.name = "topology" && o.namespaceName = ns && o.kind = "ConfigMap"

/-- TopologyFileReconciler.Reconcile. The desired ConfigMap carries
topology.ToDot() under the "topology" key; destructErr, createOutcome
and updateErr are the outcomes of the store interactions (each
consulted only when the corresponding call is issued). Mirrors the
source control flow: destruct (logging any error and continuing),
filter existing topology ConfigMaps from the object set; none found →
create, treating already-exists as informational; several found → log
and use the first; then update exactly when the stored "topology" key
is missing or its text differs from the fresh serialization. -/
def topologyFileReconcile (ns : String) (t : Topology) (destructErr : Option String)
    (createOutcome : CreateOutcome) (updateErr : Option String) : TopoReconcileOut :=
  let destructLog : List LogEntry :=
    match destructErr with
    | some _ => [⟨.errorLevel, "failed to destruct topology configmap"⟩]
    | none => []
  match t.objects.filter (isTopologyCM ns) with
  | [] =>
      let createLog : List LogEntry :=
        match createOutcome with
        | .ok => []
        | .alreadyExists =>
            [⟨.info, "already created topology configmap, must not be in topology yet"⟩]
        | .failed _ => [⟨.errorLevel, "failed to write topology configmap"⟩]
      ⟨destructLog ++ createLog, some .createCM⟩
  | existing0 :: rest =>
      let multiLog : List LogEntry :=
        if rest.isEmpty then []
        else [⟨.info, "multiple topology configmaps found, continuing but unexpected behaviour may occur"⟩]
      if lookupData existing0.data "topology" ≠ some t.dot then
        let updateLog : List LogEntry :=
          match updateErr with
          | some _ => [⟨.errorLevel, "failed to update topology configmap"⟩]
          | none => []
        ⟨destructLog ++ multiLog ++ updateLog, some .updateCM⟩
      else
        ⟨destructLog ++ multiLog, none⟩

/-- Names of the three reconcile leaves composed in buildReconciler. -/
inductive StepName where
  | eventLogger
  | topologySynchronizer
  | authorinoCrEnsurer
deriving DecidableEq, Repr

/-- Modelled from the spec: controller.Workflow lives in the external
policy-machinery module; per the spec a workflow is an optional
precondition (itself a composable unit) plus an ordered task list, run
precondition first, then every task in list order. -/
inductive Step where
  | leaf (n : StepName)
  | flow (precondition : Option Step) (tasks : List Step)

mutual

/-- Modelled from the spec: Workflow.Run invocation order, as the
sequence of leaf reconcile functions invoked. -/
def Step.trace : Step → List StepName
  | .leaf n => [n]
  | .flow none tasks => traceAll tasks
  | .flow (some p) tasks => p.trace ++ traceAll tasks

/-- Invocation order of a task list, in list order. -/
def traceAll : List Step → List StepName
  | [] => []
  | s :: ss => s.trace ++ traceAll ss

end


/-- buildReconciler (the unnamed controllers file, lines 73-86): an
outer workflow whose precondition is itself a workflow with the event
logger as precondition and the topology file reconciler as sole task,
and whose own sole task is the subscribed Authorino CR reconciler. -/
def buildReconciler : Step :=
  .flow
    (some (.flow (some (.leaf .eventLogger)) [.leaf .topologySynchronizer]))
    [.leaf .authorinoCrEnsurer]

/-- controller.ResourceEventMatcher: optional kind and event type;
an unset field matches anything. -/
structure ResourceEventMatcher where
  kind : Option String
  eventType : Option EventType
deriving DecidableEq, Repr

/-- AuthorinoCrReconciler.Subscription (lines 96-104): the two declared
event matchers. -/
def authorinoSubscriptionEvents : List ResourceEventMatcher :=
  [{ kind := some "Kuadrant", eventType := some .createEvent },
   { kind := some "Authorino", eventType := some .deleteEvent }]

/-- Whether one matcher accepts an event of the given kind and type:
every set field must agree. -/
def matcherAccepts (m : ResourceEventMatcher) (kind : String) (et : EventType) : Bool :=
  (match m.kind with
   | none => true
   | some k => k = kind) &&
  (match m.eventType with
   | none => true
   | some ty => ty = et)

/-- The dispatcher invokes a subscription iff some declared matcher
accepts the event. -/
def subscriptionTriggers (ms : List ResourceEventMatcher) (kind : String)
    (et : EventType) : Bool :=
  ms.any (fun m => matcherAccepts m kind et)

/-- controller.ResourceEvent: the event type and the optional old and
new objects. -/
structure ResourceEvent where
  eventType : EventType
  oldObject : Option TopoObject
  newObject : Option TopoObject
deriving DecidableEq, Repr

/-- One entry emitted by the event logger: either the per-event
"new event" line carrying type, kind, namespace and name, or the
upstream-error line. -/
inductive EventLogEntry where
  | newEvent (etype : String) (kind : String) (ns : String) (name : String)
  | upstreamError (msg : String)
deriving DecidableEq, Repr

/-- The object an event is reported from: OldObject when present,
NewObject otherwise (Go: obj := event.OldObject; if obj == nil
obj = event.NewObject). -/
def eventObject (e : ResourceEvent) : Option TopoObject :=
  match e.oldObject with
  | some o => some o
  | none => e.newObject

/-- The suffix the logger emits after each event line: the
upstream-error line when a non-nil error was passed in, nothing
otherwise. -/
def errSuffix : Option String → List EventLogEntry
  | some m => [EventLogEntry.upstreamError m]
  | none => []

/-- EventLogger.Log (lines 260-282). Returns none when an event with
both objects nil is reached — there the Go code dereferences a nil
interface and panics — and otherwise the emitted entries: per event one
"new event" line (from the old object when present, else the new one)
followed by the upstream-error line when a non-nil error was passed in.
The verbose-mode diff only augments the same line and is omitted. -/
def eventLoggerLog (events : List ResourceEvent) (upstreamErr : Option String) :
    Option (List EventLogEntry) :=
  match events with
  | [] => some []
  | e :: rest =>
      match eventObject e with
      | none => none
      | some o =>
          match eventLoggerLog rest upstreamErr with
          | none => none
          | some tail =>
              some ((EventLogEntry.newEvent e.eventType.render o.kind o.namespaceName
                  o.name :: errSuffix upstreamErr) ++ tail)

/-- Recognizes a per-event "new event" line. -/
def isNewEventEntry : EventLogEntry → Bool
  | .newEvent _ _ _ _ => true
  | .upstreamError _ => false

/-- A sample two-event batch: an update carrying both objects and a
delete carrying only the old object. -/
def sampleBatch : List ResourceEvent :=
  [⟨.updateEvent, some ⟨"Gateway", "default", "gw", "u2", none, []⟩,
      some ⟨"Gateway", "default", "gw", "u2", none, []⟩⟩,
   ⟨.deleteEvent, some ⟨"HTTPRoute", "default", "route", "u3", none, []⟩, none⟩]

theorem findCondition_setStatusCondition (conds : List KCondition) (c : KCondition) :
    findCondition (setStatusCondition conds c) c.type = some c := by
  induction conds with
  | nil => simp [findCondition, setStatusCondition]
  | cons x xs ih =>
      by_cases h : x.type = c.type
      · simp [findCondition, setStatusCondition, h]
      · simp [findCondition, setStatusCondition, h, List.find?]
        exact ih

/-- C1: for every policy object, spec error and readiness flag,
calculateStatus evaluates the availability precedence in order: a
non-nil spec error yields the False / "ReconciliationError" condition
carrying the error text; otherwise a not-ready dependency yields the
False / "AuthSchemeNotReady" condition; otherwise the condition is
True with reason "<TargetKind>Protected" and message
"<TargetKind> is protected". -/
theorem c1_calculateStatus_precedence (ap : AuthPolicy) (specErr : Option String)
    (ready : Bool) :
    (∀ e, specErr = some e →
      findCondition (calculateStatus ap specErr ready).conditions APAvailableConditionType =
        some { type := APAvailableConditionType, status := .conditionFalse,
               reason := "ReconciliationError", message := e }) ∧
    (specErr = none → ready = false →
      findCondition (calculateStatus ap specErr ready).conditions APAvailableConditionType =
        some { type := APAvailableConditionType, status := .conditionFalse,
               reason := "AuthSchemeNotReady", message := "AuthScheme is not ready yet" }) ∧
    (specErr = none → ready = true →
      findCondition (calculateStatus ap specErr ready).conditions APAvailableConditionType =
        some { type := APAvailableConditionType, status := .conditionTrue,
               reason := ap.targetRefKind ++ "Protected",
               message := ap.targetRefKind ++ " is protected" }) := by
  refine ⟨?_, ?_, ?_⟩
  · intro e he
    subst he
    have h := findCondition_setStatusCondition ap.status.conditions
      (availableCondition ap.targetRefKind (some e) ready)
    simpa [calculateStatus, availableCondition] using h
  · intro he hr
    subst he; subst hr
    have h := findCondition_setStatusCondition ap.status.conditions
      (availableCondition ap.targetRefKind none false)
    simpa [calculateStatus, availableCondition] using h
  · intro he hr
    subst he; subst hr
    have h := findCondition_setStatusCondition ap.status.conditions
      (availableCondition ap.targetRefKind none true)
    simpa [calculateStatus, availableCondition] using h

/-- Witness for C1 at a concrete policy, discharging each hypothesis. -/
theorem c1_calculateStatus_precedence_witness :
    let ap : AuthPolicy :=
      { generation := 2, targetRefKind := "HTTPRoute",
        status := { conditions := [], observedGeneration := 1 } }
    (findCondition (calculateStatus ap (some "boom") true).conditions APAvailableConditionType =
      some { type := APAvailableConditionType, status := .conditionFalse,
             reason := "ReconciliationError", message := "boom" }) ∧
    (findCondition (calculateStatus ap none false).conditions APAvailableConditionType =
      some { type := APAvailableConditionType, status := .conditionFalse,
             reason := "AuthSchemeNotReady", message := "AuthScheme is not ready yet" }) ∧
    (findCondition (calculateStatus ap none true).conditions APAvailableConditionType =
      some { type := APAvailableConditionType, status := .conditionTrue,
             reason := "HTTPRouteProtected", message := "HTTPRoute is protected" }) := by
  refine ⟨?_, ?_, ?_⟩
  · exact (c1_calculateStatus_precedence _ (some "boom") true).1 "boom" rfl
  · exact (c1_calculateStatus_precedence _ none false).2.1 rfl rfl
  · exact (c1_calculateStatus_precedence _ none true).2.2 rfl rfl

/-- C4: when the readiness step succeeds, reconcileStatus skips the
status write exactly when the computed status semantically equals the
current one (ignoring ObservedGeneration) and Generation equals
Status.ObservedGeneration; in every other case it writes after setting
ObservedGeneration to the object's Generation, so a successful update
leaves Status.ObservedGeneration equal to the Generation the status was
computed from. -/
theorem c4_reconcileStatus_write_guard (ap : AuthPolicy) (specErr : Option String)
    (fetchReady : Except String Bool) (updateErr : Option StoreErr) (r : Bool)
    (hf : effReadyStep specErr fetchReady = .ok r) :
    (statusEquals ap.status (calculateStatus ap specErr r) = true ∧
        ap.generation = ap.status.observedGeneration →
      (reconcileStatus ap specErr fetchReady updateErr).wrote = false ∧
      (reconcileStatus ap specErr fetchReady updateErr).ap = ap) ∧
    (¬ (statusEquals ap.status (calculateStatus ap specErr r) = true ∧
        ap.generation = ap.status.observedGeneration) →
      (reconcileStatus ap specErr fetchReady updateErr).wrote = true ∧
      (reconcileStatus ap specErr fetchReady updateErr).ap.status.observedGeneration =
        ap.generation ∧
      (updateErr = none →
        (reconcileStatus ap specErr fetchReady updateErr).error = none)) := by
  constructor
  · intro h
    simp only [reconcileStatus, hf, h.1, h.2]
    simp
  · intro h
    have h' : ¬ (statusEquals ap.status (calculateStatus ap specErr r) = true ∧
        ap.generation = ap.status.observedGeneration) := h
    simp only [reconcileStatus, hf]
    rw [if_neg h']
    cases updateErr with
    | none => simp
    | some e => cases e <;> simp

/-- Witness for C4: a policy whose stored condition list is empty, so
the freshly computed status differs and the write path is taken; and
the same policy with the matching condition already stored and the
generation already observed, so the write is skipped. -/
theorem c4_reconcileStatus_write_guard_witness :
    let apWrite : AuthPolicy :=
      { generation := 2, targetRefKind := "HTTPRoute",
        status := { conditions := [], observedGeneration := 1 } }
    let protectedCond : KCondition :=
      { type := APAvailableConditionType, status := .conditionTrue,
        reason := "HTTPRouteProtected", message := "HTTPRoute is protected" }
    let apSkip : AuthPolicy :=
      { generation := 2, targetRefKind := "HTTPRoute",
        status := { conditions := [protectedCond], observedGeneration := 2 } }
    ((reconcileStatus apWrite none (.ok true) none).wrote = true ∧
      (reconcileStatus apWrite none (.ok true) none).ap.status.observedGeneration = 2) ∧
    (reconcileStatus apSkip none (.ok true) none).wrote = false := by
  intro apWrite protectedCond apSkip
  refine ⟨⟨?_, ?_⟩, ?_⟩
  · exact ((c4_reconcileStatus_write_guard apWrite none (.ok true) none true rfl).2
      (by decide)).1
  · exact ((c4_reconcileStatus_write_guard apWrite none (.ok true) none true rfl).2
      (by decide)).2.1
  · exact ((c4_reconcileStatus_write_guard apSkip none (.ok true) none true rfl).1
      (by decide)).1

/-- C7: when the write path is reached, a conflict from the status
update is swallowed — no error is returned, only a requeue result —
while any other update failure is surfaced to the caller wrapped as
"failed to update status". -/
theorem c7_reconcileStatus_conflict (ap : AuthPolicy) (specErr : Option String)
    (fetchReady : Except String Bool) (r : Bool)
    (hf : effReadyStep specErr fetchReady = .ok r)
    (hw : ¬ (statusEquals ap.status (calculateStatus ap specErr r) = true ∧
        ap.generation = ap.status.observedGeneration)) :
    ((reconcileStatus ap specErr fetchReady (some .conflict)).error = none ∧
      (reconcileStatus ap specErr fetchReady (some .conflict)).result.requeue = true) ∧
    (∀ m, (reconcileStatus ap specErr fetchReady (some (.other m))).error =
        some ("failed to update status: " ++ m)) := by
  constructor
  · simp only [reconcileStatus, hf]
    rw [if_neg hw]
    simp
  · intro m
    simp only [reconcileStatus, hf]
    rw [if_neg hw]

/-- Witness for C7 at a concrete policy on the write path. -/
theorem c7_reconcileStatus_conflict_witness :
    let ap : AuthPolicy :=
      { generation := 2, targetRefKind := "Gateway",
        status := { conditions := [], observedGeneration := 1 } }
    ((reconcileStatus ap none (.ok true) (some .conflict)).error = none ∧
      (reconcileStatus ap none (.ok true) (some .conflict)).result.requeue = true) ∧
    (reconcileStatus ap none (.ok true) (some (.other "boom"))).error =
      some "failed to update status: boom" := by
  intro ap
  refine ⟨(c7_reconcileStatus_conflict ap none (.ok true) true rfl (by decide)).1, ?_⟩
  exact (c7_reconcileStatus_conflict ap none (.ok true) true rfl (by decide)).2 "boom"

/-- C3: when the allow-listed subsets of existing and desired agree —
in particular when only a field outside the allow-list differs — the
mutator reports changed = false and returns the existing object
entirely unchanged; when they differ it reports changed = true, copies
exactly the five managed fields from desired, and leaves the metadata
and every other spec field of existing untouched. -/
theorem c3_LimitadorMutator_frame (existing desired : Limitador) :
    (limitadorSpecSubSet existing.spec = limitadorSpecSubSet desired.spec →
      LimitadorMutator existing desired = (false, existing)) ∧
    (limitadorSpecSubSet existing.spec ≠ limitadorSpecSubSet desired.spec →
      (LimitadorMutator existing desired).1 = true ∧
      (LimitadorMutator existing desired).2.meta = existing.meta ∧
      (LimitadorMutator existing desired).2.spec.limits = existing.spec.limits ∧
      (LimitadorMutator existing desired).2.spec.listener = existing.spec.listener ∧
      (LimitadorMutator existing desired).2.spec.version = existing.spec.version ∧
      (LimitadorMutator existing desired).2.spec.rateLimitHeaders =
        existing.spec.rateLimitHeaders ∧
      (LimitadorMutator existing desired).2.spec.telemetry = existing.spec.telemetry ∧
      (LimitadorMutator existing desired).2.spec.affinity = desired.spec.affinity ∧
      (LimitadorMutator existing desired).2.spec.podDisruptionBudget =
        desired.spec.podDisruptionBudget ∧
      (LimitadorMutator existing desired).2.spec.replicas = desired.spec.replicas ∧
      (LimitadorMutator existing desired).2.spec.resourceRequirements =
        desired.spec.resourceRequirements ∧
      (LimitadorMutator existing desired).2.spec.storage = desired.spec.storage) := by
  constructor
  · intro h
    simp [LimitadorMutator, h]
  · intro h
    simp [LimitadorMutator, h]

/-- Witness for C3: a pair differing only in the out-of-allow-list
limits field is reported unchanged; a pair differing in replicas is
updated with only the managed fields copied. -/
theorem c3_LimitadorMutator_frame_witness :
    let meta0 : LimitadorMeta := { name := "limitador", namespaceName := "kuadrant-system", labels := [] }
    let base : LimitadorSpec :=
      { affinity := none, podDisruptionBudget := none, replicas := some 1,
        resourceRequirements := none, storage := none, limits := [],
        listener := none, version := none, rateLimitHeaders := none, telemetry := none }
    let existing : Limitador := { meta := meta0, spec := base }
    let desiredOutside : Limitador := { meta := meta0, spec := { base with limits := ["l1"] } }
    let desiredReplicas : Limitador := { meta := meta0, spec := { base with replicas := some 3 } }
    LimitadorMutator existing desiredOutside = (false, existing) ∧
    (LimitadorMutator existing desiredReplicas).1 = true ∧
    (LimitadorMutator existing desiredReplicas).2.spec.replicas = some 3 ∧
    (LimitadorMutator existing desiredReplicas).2.spec.limits = existing.spec.limits := by
  intro meta0 base existing desiredOutside desiredReplicas
  refine ⟨?_, ?_, ?_, ?_⟩
  · exact (c3_LimitadorMutator_frame existing desiredOutside).1 (by decide)
  · exact ((c3_LimitadorMutator_frame existing desiredReplicas).2 (by decide)).1
  · have h := ((c3_LimitadorMutator_frame existing desiredReplicas).2 (by decide)).2.2.2.2.2.2.2.2.2.1
    simpa using h
  · exact ((c3_LimitadorMutator_frame existing desiredReplicas).2 (by decide)).2.2.1

/-- C2: the Authorino ensurer issues its Create call exactly when at
least one Kuadrant root exists, the first such root carries no deletion
timestamp, and no Authorino object is present in the topology; in every
other case it returns without creating anything. -/
theorem c2_authorino_create_guard (t : Topology) (destructErr : Option String)
    (createOutcome : CreateOutcome) :
    (authorinoCrReconcile t destructErr createOutcome).createIssued = true ↔
      ∃ kobj rest, t.roots.filter (fun o => o.kind = "Kuadrant") = kobj :: rest ∧
        kobj.deletionTimestamp = none ∧
        t.objects.filter (fun o => o.kind = "Authorino") = [] := by
  constructor
  · intro h
    match hk : t.roots.filter (fun o => o.kind = "Kuadrant") with
    | [] =>
        simp [authorinoCrReconcile, hk] at h
    | kobj :: rest =>
        refine ⟨kobj, rest, hk, ?_⟩
        by_cases hd : kobj.deletionTimestamp.isSome
        · simp [authorinoCrReconcile, hk, hd] at h
        · by_cases ha : (t.objects.filter (fun o => o.kind = "Authorino")).isEmpty
          · constructor
            · exact Option.not_isSome_iff_eq_none.mp hd
            · exact List.isEmpty_iff.mp ha
          · simp [authorinoCrReconcile, hk, hd, ha] at h
  · rintro ⟨kobj, rest, hk, hd, ha⟩
    have hd' : kobj.deletionTimestamp.isSome = false := by simp [hd]
    have ha' : (t.objects.filter (fun o => o.kind = "Authorino")).isEmpty = true := by
      simp [ha]
    simp [authorinoCrReconcile, hk, hd', ha']

/-- C6: with exactly one existing topology ConfigMap in the object set,
an update is issued iff the stored "topology" text differs from the
fresh serialization; and when a pass that wrote is followed by a pass
over the same topology whose ConfigMap now stores exactly the fresh
serialization (what the write put there, the destruct having
succeeded), the second pass issues no write. -/
theorem c6_topology_update_iff_changed (ns : String) (t : Topology)
    (existing0 : TopoObject) (destructErr : Option String)
    (createOutcome : CreateOutcome) (updateErr : Option String)
    (hone : t.objects.filter (isTopologyCM ns) = [existing0]) :
    ((topologyFileReconcile ns t destructErr createOutcome updateErr).write =
        some .updateCM ↔
      lookupData existing0.data "topology" ≠ some t.dot) ∧
    (∀ t' e', t'.dot = t.dot →
      t'.objects.filter (isTopologyCM ns) = [e'] →
      lookupData e'.data "topology" = some t.dot →
      (topologyFileReconcile ns t' destructErr createOutcome updateErr).write = none) := by
  constructor
  · by_cases h : lookupData existing0.data "topology" = some t.dot
    · simp [topologyFileReconcile, hone, h]
    · simp [topologyFileReconcile, hone, h]
  · intro t' e' hdot hone' hstored
    have h : lookupData e'.data "topology" = some t'.dot := by rw [hdot]; exact hstored
    simp [topologyFileReconcile, hone', h]

/-- Witness for C6: one stored ConfigMap holding stale text forces an
update; storing the fresh text suppresses the write on the second
pass. -/
theorem c6_topology_update_iff_changed_witness :
    let cmStale : TopoObject :=
      { kind := "ConfigMap", namespaceName := "kuadrant-system", name := "topology",
        uid := "u1", deletionTimestamp := none, data := [("topology", "old")] }
    let cmFresh : TopoObject :=
      { cmStale with data := [("topology", "digraph")] }
    let t : Topology := { roots := [], objects := [cmStale], dot := "digraph" }
    let t2 : Topology := { roots := [], objects := [cmFresh], dot := "digraph" }
    (topologyFileReconcile "kuadrant-system" t none .ok none).write = some .updateCM ∧
    (topologyFileReconcile "kuadrant-system" t2 none .ok none).write = none := by
  intro cmStale cmFresh t t2
  constructor
  · exact ((c6_topology_update_iff_changed "kuadrant-system" t cmStale none .ok none
      (by decide)).1).mpr (by decide)
  · exact (c6_topology_update_iff_changed "kuadrant-system" t cmStale none .ok none
      (by decide)).2 t2 cmFresh rfl (by decide) (by decide)

theorem countErrors_append (a b : List LogEntry) :
    countErrors (a ++ b) = countErrors a + countErrors b := by
  simp [countErrors, List.filter_append]

/-- C5: at both create sites — the topology ConfigMap and the Authorino
resource — a Create call failing with already-exists adds no
error-severity log line (it is treated as success, and neither
reconcile function has an error return to raise through), while any
other create failure adds exactly one error-severity line. -/
theorem c5_already_exists_not_error (ns : String) (t : Topology)
    (destructErr : Option String) (updateErr : Option String) :
    (countErrors (authorinoCrReconcile t destructErr .alreadyExists).logs =
        countErrors (authorinoCrReconcile t destructErr .ok).logs ∧
      (∀ m, (authorinoCrReconcile t destructErr .ok).createIssued = true →
        countErrors (authorinoCrReconcile t destructErr (.failed m)).logs =
          countErrors (authorinoCrReconcile t destructErr .ok).logs + 1)) ∧
    (countErrors (topologyFileReconcile ns t destructErr .alreadyExists updateErr).logs =
        countErrors (topologyFileReconcile ns t destructErr .ok updateErr).logs ∧
      (∀ m, t.objects.filter (isTopologyCM ns) = [] →
        countErrors (topologyFileReconcile ns t destructErr (.failed m) updateErr).logs =
          countErrors (topologyFileReconcile ns t destructErr .ok updateErr).logs + 1)) := by
  refine ⟨⟨?_, ?_⟩, ?_, ?_⟩
  · match hk : t.roots.filter (fun o => o.kind = "Kuadrant") with
    | [] => simp [authorinoCrReconcile, hk]
    | kobj :: rest =>
        by_cases hd : kobj.deletionTimestamp.isSome
        · simp [authorinoCrReconcile, hk, hd]
        · by_cases ha : (t.objects.filter (fun o => o.kind = "Authorino")).isEmpty
          · cases destructErr <;>
              simp [authorinoCrReconcile, hk, hd, ha, countErrors_append, countErrors]
          · simp [authorinoCrReconcile, hk, hd, ha]
  · intro m hcreate
    match hk : t.roots.filter (fun o => o.kind = "Kuadrant") with
    | [] => simp [authorinoCrReconcile, hk] at hcreate
    | kobj :: rest =>
        by_cases hd : kobj.deletionTimestamp.isSome
        · simp [authorinoCrReconcile, hk, hd] at hcreate
        · by_cases ha : (t.objects.filter (fun o => o.kind = "Authorino")).isEmpty
          · cases destructErr <;>
              simp [authorinoCrReconcile, hk, hd, ha, countErrors_append, countErrors]
          · simp [authorinoCrReconcile, hk, hd, ha] at hcreate
  · match hc : t.objects.filter (isTopologyCM ns) with
    | [] =>
        cases destructErr <;>
          simp [topologyFileReconcile, hc, countErrors_append, countErrors]
    | e0 :: rest =>
        simp [topologyFileReconcile, hc]
  · intro m hempty
    cases destructErr <;>
      simp [topologyFileReconcile, hempty, countErrors_append, countErrors]

/-- Witness for C5: with no Kuadrant root yet no Authorino and no
existing ConfigMap, both create sites are exercised. -/
theorem c5_already_exists_not_error_witness :
    let k : TopoObject :=
      { kind := "Kuadrant", namespaceName := "kuadrant-system", name := "kuadrant",
        uid := "u0", deletionTimestamp := none, data := [] }
    let t : Topology := { roots := [k], objects := [k], dot := "digraph" }
    (countErrors (authorinoCrReconcile t none .alreadyExists).logs =
        countErrors (authorinoCrReconcile t none .ok).logs ∧
      countErrors (authorinoCrReconcile t none (.failed "boom")).logs =
        countErrors (authorinoCrReconcile t none .ok).logs + 1) ∧
    (countErrors (topologyFileReconcile "kuadrant-system" t none .alreadyExists none).logs =
        countErrors (topologyFileReconcile "kuadrant-system" t none .ok none).logs ∧
      countErrors (topologyFileReconcile "kuadrant-system" t none (.failed "boom") none).logs =
        countErrors (topologyFileReconcile "kuadrant-system" t none .ok none).logs + 1) := by
  intro k t
  refine ⟨⟨?_, ?_⟩, ?_, ?_⟩
  · exact (c5_already_exists_not_error "kuadrant-system" t none none).1.1
  · exact (c5_already_exists_not_error "kuadrant-system" t none none).1.2 "boom" (by decide)
  · exact (c5_already_exists_not_error "kuadrant-system" t none none).2.1
  · exact (c5_already_exists_not_error "kuadrant-system" t none none).2.2 "boom" (by decide)

/-- C8 counterexample: with a failing Destruct and no existing topology
ConfigMap, the reconciler logs the destruct error but still issues the
Create call in the same pass, contradicting the claim that no create or
update call is issued after a serialization failure. -/
theorem c8_destruct_error_counterexample :
    let t : Topology := { roots := [], objects := [], dot := "digraph" }
    (topologyFileReconcile "kuadrant-system" t (some "boom") .ok none).logs.contains
        ⟨.errorLevel, "failed to destruct topology configmap"⟩ = true ∧
    (topologyFileReconcile "kuadrant-system" t (some "boom") .ok none).write =
      some .createCM := by
  constructor
  · decide
  · decide

/-- C8 amended: a Destruct failure is logged at error severity and the
pass continues, but the create or update call is still issued exactly
as it would have been on a successful serialization (submitting the
zero-valued payload), at both sites. -/
theorem c8_destruct_error_amended (ns : String) (t : Topology) (e : String)
    (createOutcome : CreateOutcome) (updateErr : Option String) :
    ((topologyFileReconcile ns t (some e) createOutcome updateErr).write =
        (topologyFileReconcile ns t none createOutcome updateErr).write ∧
      (topologyFileReconcile ns t (some e) createOutcome updateErr).logs.contains
        ⟨.errorLevel, "failed to destruct topology configmap"⟩ = true) ∧
    ((authorinoCrReconcile t (some e) createOutcome).createIssued =
        (authorinoCrReconcile t none createOutcome).createIssued ∧
      ((authorinoCrReconcile t (some e) createOutcome).createIssued = true →
        (authorinoCrReconcile t (some e) createOutcome).logs.contains
          ⟨.errorLevel, "failed to destruct authorino"⟩ = true)) := by
  refine ⟨⟨?_, ?_⟩, ?_, ?_⟩
  · match hc : t.objects.filter (isTopologyCM ns) with
    | [] => simp [topologyFileReconcile, hc]
    | e0 :: rest =>
        by_cases hl : lookupData e0.data "topology" = some t.dot
        · simp [topologyFileReconcile, hc, hl]
        · simp [topologyFileReconcile, hc, hl]
  · match hc : t.objects.filter (isTopologyCM ns) with
    | [] => simp [topologyFileReconcile, hc]
    | e0 :: rest =>
        by_cases hl : lookupData e0.data "topology" = some t.dot
        · simp [topologyFileReconcile, hc, hl]
        · simp [topologyFileReconcile, hc, hl]
  · match hk : t.roots.filter (fun o => o.kind = "Kuadrant") with
    | [] => simp [authorinoCrReconcile, hk]
    | kobj :: rest =>
        by_cases hd : kobj.deletionTimestamp.isSome
        · simp [authorinoCrReconcile, hk, hd]
        · by_cases ha : (t.objects.filter (fun o => o.kind = "Authorino")).isEmpty
          · simp [authorinoCrReconcile, hk, hd, ha]
          · simp [authorinoCrReconcile, hk, hd, ha]
  · intro hcreate
    match hk : t.roots.filter (fun o => o.kind = "Kuadrant") with
    | [] => simp [authorinoCrReconcile, hk] at hcreate
    | kobj :: rest =>
        by_cases hd : kobj.deletionTimestamp.isSome
        · simp [authorinoCrReconcile, hk, hd] at hcreate
        · by_cases ha : (t.objects.filter (fun o => o.kind = "Authorino")).isEmpty
          · simp [authorinoCrReconcile, hk, hd, ha]
          · simp [authorinoCrReconcile, hk, hd, ha] at hcreate

/-- Witness for C8's amended statement, exercising the create path of
the Authorino ensurer under a failing Destruct. -/
theorem c8_destruct_error_amended_witness :
    let k : TopoObject :=
      { kind := "Kuadrant", namespaceName := "kuadrant-system", name := "kuadrant",
        uid := "u0", deletionTimestamp := none, data := [] }
    let t : Topology := { roots := [k], objects := [k], dot := "digraph" }
    (topologyFileReconcile "kuadrant-system" t (some "boom") .ok none).write =
        (topologyFileReconcile "kuadrant-system" t none .ok none).write ∧
    (authorinoCrReconcile t (some "boom") .ok).logs.contains
        ⟨.errorLevel, "failed to destruct authorino"⟩ = true := by
  intro k t
  constructor
  · exact (c8_destruct_error_amended "kuadrant-system" t "boom" .ok none).1.1
  · exact (c8_destruct_error_amended "kuadrant-system" t "boom" .ok none).2.2 (by decide)

/-- C9: in the shipped composition every pass invokes the event logger
first, then the topology synchronizer, then the Authorino ensurer; and
the ensurer's subscription accepts exactly the creation of a Kuadrant
and the deletion of an Authorino, so no other event triggers it. -/
theorem c9_workflow_order_and_subscription :
    buildReconciler.trace =
      [.eventLogger, .topologySynchronizer, .authorinoCrEnsurer] ∧
    ∀ (kind : String) (et : EventType),
      subscriptionTriggers authorinoSubscriptionEvents kind et = true ↔
        (kind = "Kuadrant" ∧ et = .createEvent) ∨
        (kind = "Authorino" ∧ et = .deleteEvent) := by
  constructor
  · rfl
  · intro kind et
    simp [subscriptionTriggers, authorinoSubscriptionEvents, matcherAccepts]
    constructor
    · rintro (⟨hk, hty⟩ | ⟨hk, hty⟩)
      · exact Or.inl ⟨hk.symm, hty.symm⟩
      · exact Or.inr ⟨hk.symm, hty.symm⟩
    · rintro (⟨hk, hty⟩ | ⟨hk, hty⟩)
      · exact Or.inl ⟨hk.symm, hty.symm⟩
      · exact Or.inr ⟨hk.symm, hty.symm⟩

theorem errSuffix_filter_new (upstreamErr : Option String) :
    (errSuffix upstreamErr).filter isNewEventEntry = [] := by
  cases upstreamErr <;> simp [errSuffix, isNewEventEntry]

theorem errSuffix_filter_err (upstreamErr : Option String) :
    ((errSuffix upstreamErr).filter (fun x => !isNewEventEntry x)).length =
      if upstreamErr.isSome then 1 else 0 := by
  cases upstreamErr <;> simp [errSuffix, isNewEventEntry]

/-- C10: on any batch in which every event carries at least one of
OldObject / NewObject, EventLogger.Log is total (never hits the nil
dereference): it emits exactly one "new event" line per event, reading
kind, namespace and name from OldObject when present and NewObject
otherwise, and one upstream-error line per event exactly when a non-nil
upstream error was passed (hence none at all on an empty batch). -/
theorem c10_event_logger_total (events : List ResourceEvent)
    (upstreamErr : Option String)
    (h : ∀ e ∈ events, e.oldObject.isSome ∨ e.newObject.isSome) :
    ∃ entries, eventLoggerLog events upstreamErr = some entries ∧
      (entries.filter isNewEventEntry).length = events.length ∧
      (entries.filter (fun x => !isNewEventEntry x)).length =
        (if upstreamErr.isSome then events.length else 0) ∧
      ∀ e ∈ events, ∀ o, eventObject e = some o →
        EventLogEntry.newEvent e.eventType.render o.kind o.namespaceName o.name ∈
          entries := by
  induction events with
  | nil =>
      refine ⟨[], rfl, rfl, ?_, ?_⟩
      · cases upstreamErr <;> simp
      · intro e he
        simp at he
  | cons e rest ih =>
      have hobj : e.oldObject.isSome ∨ e.newObject.isSome := h e (by simp)
      have hsome : (eventObject e).isSome := by
        cases ho : e.oldObject with
        | some o => simp [eventObject, ho]
        | none =>
            rcases hobj with h1 | h1
            · rw [ho] at h1
              simp at h1
            · simpa [eventObject, ho] using h1
      rcases Option.isSome_iff_exists.mp hsome with ⟨o, ho⟩
      rcases ih (fun x hx => h x (by simp [hx])) with ⟨tail, htail, hcount, herrs, hmem⟩
      refine ⟨(EventLogEntry.newEvent e.eventType.render o.kind o.namespaceName o.name ::
          errSuffix upstreamErr) ++ tail, ?_, ?_, ?_, ?_⟩
      · simp [eventLoggerLog, ho, htail]
      · have hnew := errSuffix_filter_new upstreamErr
        simp [List.filter_append, isNewEventEntry, hcount, hnew]
      · have herr := errSuffix_filter_err upstreamErr
        cases upstreamErr
        · simp_all [List.filter_append, isNewEventEntry]
        · simp_all [List.filter_append, isNewEventEntry]
          omega
      · intro x hx o' ho'
        rcases List.mem_cons.mp hx with hx1 | hx2
        · subst hx1
          rw [ho] at ho'
          injection ho' with hoo
          rw [hoo]
          simp
        · exact List.mem_append_right _ (hmem x hx2 o' ho')

/-- Witness for C10: the sample batch with an upstream error. -/
theorem c10_event_logger_total_witness :
    ∃ entries, eventLoggerLog sampleBatch (some "boom") = some entries ∧
      (entries.filter isNewEventEntry).length = 2 ∧
      (entries.filter (fun x => !isNewEventEntry x)).length = 2 ∧
      EventLogEntry.newEvent "delete" "HTTPRoute" "default" "route" ∈ entries := by
  rcases c10_event_logger_total sampleBatch (some "boom")
      (by
        intro e he
        rcases List.mem_cons.mp he with h1 | h2
        · subst h1; simp
        · rcases List.mem_cons.mp h2 with h3 | h4
          · subst h3; simp
          · simp at h4) with ⟨entries, heq, hc, herr, hmem⟩
  refine ⟨entries, heq, by simpa [sampleBatch] using hc, by simpa [sampleBatch] using herr, ?_⟩
  have := hmem ⟨.deleteEvent, some ⟨"HTTPRoute", "default", "route", "u3", none, []⟩, none⟩
    (by simp [sampleBatch]) ⟨"HTTPRoute", "default", "route", "u3", none, []⟩ rfl
  simpa using this
